import Mathlib

/-!
# Fused operation graph assembly: `pocFusedResizeAndSharpen`

A shallow embedding of `src/vips/fusion_poc.go`.  The Go function is a straight
line of calls into the native engine with three early returns and a stack of
deferred cleanup calls.  The engine is an external collaborator, so it is a
parameter of the embedding (`Engine`): every theorem about the function is
stated for every engine and every engine state, and a small reference engine
(`specEngine`) supplies concrete runs.

The embedding threads an explicit state: the engine state, the chronological
trace of calls the function made, the stack of deferred calls, and the content
of the five local `GValue` carriers.
-/

namespace Govips

/-! ## Data model -/

/-- A Go `float64` (C `double`), kept as its IEEE-754 bit pattern.  The function
only passes `scale` and `sigma` through to the engine and never computes on them. -/
structure Float64 where
  bits : Nat
deriving DecidableEq, Repr

/-- A `*C.VipsOperation`; the null pointer is `0`. -/
abbrev OpPtr := Nat

/-- A `*C.VipsImage`; the null pointer is `0`. -/
abbrev ImagePtr := Nat

/-- A `C.gpointer` as the source builds it: a cast of an operation pointer
(`C.gpointer(resizeOp)`) or of an image pointer (`C.gpointer(finalImagePtr)`). -/
inductive GPointer
  | operation (p : OpPtr)
  | image (p : ImagePtr)
deriving DecidableEq, Repr

/-- The content of a `C.GValue`: zeroed (what `var v C.GValue` gives, and what
`g_value_unset` leaves), or holding an image reference, a double or a string. -/
inductive GValue
  | unset
  | image (p : ImagePtr)
  | double (d : Float64)
  | string (s : String)
deriving DecidableEq, Repr

/-- The five local `GValue` variables of the function, in declaration order. -/
inductive Carrier
  | gvalueIn
  | gvalueScale
  | gvalueResizeOut
  | gvalueSigma
  | gvalueFinalOut
deriving DecidableEq, Repr

/-- Why the engine refused a property write (spec section 7). -/
inductive PropError
  | invalidProperty
  | typeMismatch
deriving DecidableEq, Repr

/-- The Go `ImageType` enumeration, as its integer value. -/
abbrev ImageType := Nat

/-- Modelled from the spec: the `ImageRef` type is declared outside
`fusion_poc.go`.  Spec section 3: the caller-facing image handle wraps a native
image reference plus the current and the original format; the fourth argument
of `newImageRef` is the backing buffer (`nil` is `none`). -/
structure ImageRef where
  image : ImagePtr
  format : ImageType
  originalFormat : ImageType
  buf : Option (List Nat)
deriving DecidableEq, Repr

/-- A Go `error` value built by `handleVipsError`: it carries a message. -/
structure GoError where
  msg : String
deriving DecidableEq, Repr

/-- One call made by the function, with its arguments and, where the call
returns something, what it returned.  C strings are identified with their
content. -/
inductive Event
  | cString (s : String)
  | free (s : String)
  | operationNew (nickname : String) (ret : OpPtr)
  | valueSetImage (c : Carrier) (image : ImagePtr)
  | valueSetDouble (c : Carrier) (d : Float64)
  | setProperty (obj : OpPtr) (name : String) (c : Carrier) (v : GValue)
      (refused : Option PropError)
  | getProperty (obj : OpPtr) (name : String) (c : Carrier) (v : GValue)
  | valueGetImage (c : Carrier) (ret : ImagePtr)
  | valueUnset (c : Carrier) (held : GValue)
  | build (op : OpPtr) (ret : OpPtr)
  | ref (p : GPointer)
  | unref (p : GPointer)
  | handleVipsError (msg : String)
  | newImageRef (image : ImagePtr) (format originalFormat : ImageType)
deriving DecidableEq, Repr

/-- A call registered with `defer`; its arguments are fixed when it is registered. -/
inductive Deferred
  | free (s : String)
  | unref (p : GPointer)
deriving DecidableEq, Repr

/-- The native engine (libvips and GObject), an external collaborator: each C
entry point the function calls, as a transition on the engine state `σ`.
`g_object_set_property` returns `void` in C; the first component of its result
here is what the engine did with the write (`none`: accepted), which the caller
cannot observe. -/
structure Engine (σ : Type) where
  vips_operation_new : σ → String → OpPtr × σ
  g_object_set_property : σ → OpPtr → String → GValue → Option PropError × σ
  g_object_get_property : σ → OpPtr → String → GValue × σ
  vips_cache_operation_build : σ → OpPtr → OpPtr × σ
  g_object_ref : σ → GPointer → σ
  g_object_unref : σ → GPointer → σ
  vips_error_buffer : σ → String
  vips_error_clear : σ → σ

/-- The state threaded through one call of the function.  The argument
`inImage` is a pointer; `inImage` here is the handle it points to, which lives
outside the function and outlives the call. -/
structure St (σ : Type) where
  engine : σ
  trace : List Event
  deferred : List Deferred
  carriers : Carrier → GValue
  inImage : ImageRef

/-- The state on entry: no call made, nothing deferred, every carrier zeroed. -/
def St.init {σ : Type} (s : σ) (inImage : ImageRef) : St σ :=
  { engine := s, trace := [], deferred := [], carriers := fun _ => GValue.unset,
    inImage := inImage }

/-- What a call of the function leaves behind: the two Go return values and the
final state. -/
structure Outcome (σ : Type) where
  image : Option ImageRef
  err : Option GoError
  st : St σ

/-! ## Primitive steps -/

section Steps

variable {σ : Type}

/-- Record a call at the end of the trace. -/
def emit (e : Event) (st : St σ) : St σ :=
  { st with trace := st.trace ++ [e] }

/-- Overwrite one carrier. -/
def setCarrier (cs : Carrier → GValue) (c : Carrier) (v : GValue) : Carrier → GValue :=
  fun k => if k = c then v else cs k

/-- The call `C.CString(s)`. -/
def CString (s : String) (st : St σ) : String × St σ :=
  (s, emit (.cString s) st)

/-- A `defer` statement: push the call on the deferred stack. -/
def deferCall (d : Deferred) (st : St σ) : St σ :=
  { st with deferred := d :: st.deferred }

/-- The call `C.vips_operation_new(nickname)`. -/
def vips_operation_new (E : Engine σ) (nickname : String) (st : St σ) : OpPtr × St σ :=
  let r := E.vips_operation_new st.engine nickname
  (r.1, emit (.operationNew nickname r.1) { st with engine := r.2 })

/-- Modelled from the spec: `govips_g_value_set_image` lives in
`gvalue_helpers.h`.  It initialises the carrier as an image value and stores the
image in it; a carrier holding an image holds a reference on it (spec 4.2). -/
def govips_g_value_set_image (E : Engine σ) (c : Carrier) (image : ImagePtr)
    (st : St σ) : St σ :=
  let eng := if image = 0 then st.engine else E.g_object_ref st.engine (.image image)
  emit (.valueSetImage c image)
    { st with engine := eng, carriers := setCarrier st.carriers c (.image image) }

/-- Modelled from the spec: `govips_g_value_set_double` lives in
`gvalue_helpers.h`.  It initialises the carrier as a double and stores `d`. -/
def govips_g_value_set_double (c : Carrier) (d : Float64) (st : St σ) : St σ :=
  emit (.valueSetDouble c d) { st with carriers := setCarrier st.carriers c (.double d) }

/-- The call `C.g_object_set_property(obj, name, &c)`: the engine reads the carrier; the
call returns nothing, the carrier is left as it was. -/
def g_object_set_property (E : Engine σ) (obj : OpPtr) (name : String) (c : Carrier)
    (st : St σ) : St σ :=
  let r := E.g_object_set_property st.engine obj name (st.carriers c)
  emit (.setProperty obj name c (st.carriers c) r.1) { st with engine := r.2 }

/-- The call `C.g_object_get_property(obj, name, &c)`: the engine fills the carrier. -/
def g_object_get_property (E : Engine σ) (obj : OpPtr) (name : String) (c : Carrier)
    (st : St σ) : St σ :=
  let r := E.g_object_get_property st.engine obj name
  emit (.getProperty obj name c r.1)
    { st with engine := r.2, carriers := setCarrier st.carriers c r.1 }

/-- Modelled from the spec: `govips_g_value_get_image` lives in
`gvalue_helpers.h`.  It reads the image out of the carrier without taking a
reference; a carrier that holds no image gives the null pointer. -/
def govips_g_value_get_image (c : Carrier) (st : St σ) : ImagePtr × St σ :=
  let p := match st.carriers c with
    | .image p => p
    | _ => 0
  (p, emit (.valueGetImage c p) st)

/-- The call `C.g_value_unset(&c)`: drop what the carrier holds (an image reference is
released) and zero it. -/
def g_value_unset (E : Engine σ) (c : Carrier) (st : St σ) : St σ :=
  let eng := match st.carriers c with
    | .image p => if p = 0 then st.engine else E.g_object_unref st.engine (.image p)
    | _ => st.engine
  emit (.valueUnset c (st.carriers c))
    { st with engine := eng, carriers := setCarrier st.carriers c .unset }

/-- The call `C.vips_cache_operation_build(op)`. -/
def vips_cache_operation_build (E : Engine σ) (op : OpPtr) (st : St σ) : OpPtr × St σ :=
  let r := E.vips_cache_operation_build st.engine op
  (r.1, emit (.build op r.1) { st with engine := r.2 })

/-- The call `C.g_object_ref(p)`. -/
def g_object_ref (E : Engine σ) (p : GPointer) (st : St σ) : St σ :=
  emit (.ref p) { st with engine := E.g_object_ref st.engine p }

/-- The call `C.g_object_unref(p)`. -/
def g_object_unref (E : Engine σ) (p : GPointer) (st : St σ) : St σ :=
  emit (.unref p) { st with engine := E.g_object_unref st.engine p }

/-- Modelled from the spec: `handleVipsError` is defined outside
`fusion_poc.go`.  Spec section 6: the engine message is retrieved on failure and
surfaced verbatim; the buffer is cleared once read. -/
def handleVipsError (E : Engine σ) (st : St σ) : GoError × St σ :=
  let msg := E.vips_error_buffer st.engine
  (⟨msg⟩, emit (.handleVipsError msg) { st with engine := E.vips_error_clear st.engine })

/-- Modelled from the spec: `newImageRef` is defined outside `fusion_poc.go`.
Spec section 3 and 4.4: it wraps the native image with the two formats and the
buffer in a fresh handle. -/
def newImageRef (image : ImagePtr) (format originalFormat : ImageType)
    (buf : Option (List Nat)) (st : St σ) : ImageRef × St σ :=
  (⟨image, format, originalFormat, buf⟩, emit (.newImageRef image format originalFormat) st)

/-- Run one deferred call. -/
def execDeferred (E : Engine σ) (d : Deferred) (st : St σ) : St σ :=
  match d with
  | .free s => emit (.free s) st
  | .unref p => g_object_unref E p st

/-- Run deferred calls, the head of the list first. -/
def runDeferred (E : Engine σ) : List Deferred → St σ → St σ
  | [], st => st
  | d :: ds, st => runDeferred E ds (execDeferred E d st)

/-- A `return`: the return values are already computed; the deferred calls run
last registered first, then the function is left. -/
def returnWith (E : Engine σ) (image : Option ImageRef) (err : Option GoError)
    (st : St σ) : Outcome σ :=
  let st1 := runDeferred E st.deferred st
  { image := image, err := err, st := { st1 with deferred := [] } }

end Steps

/-! ## The function -/

/-- The Go function `pocFusedResizeAndSharpen(inImage, scale, sigma)`, statement
by statement, started in state `st`; the handle behind the pointer `inImage` is
read from the state at the moment the source reads it. -/
def pocFusedResizeAndSharpen {σ : Type} (E : Engine σ) (scale sigma : Float64)
    (st : St σ) : Outcome σ :=
  -- Operation 1: RESIZE
  let r := CString "resize" st
  let resizeNickname := r.1
  let st := deferCall (.free resizeNickname) r.2
  let r := vips_operation_new E resizeNickname st
  let resizeOp := r.1
  let st := r.2
  if resizeOp = 0 then
    let r := handleVipsError E st
    returnWith E none (some r.1) r.2
  else
  let st := deferCall (.unref (.operation resizeOp)) st
  -- the primary input image
  let st := govips_g_value_set_image E .gvalueIn st.inImage.image st
  let r := CString "in" st
  let propIn := r.1
  let st := deferCall (.free propIn) r.2
  let st := g_object_set_property E resizeOp propIn .gvalueIn st
  let st := g_value_unset E .gvalueIn st
  -- the scale argument
  let st := govips_g_value_set_double .gvalueScale scale st
  let r := CString "scale" st
  let propScale := r.1
  let st := deferCall (.free propScale) r.2
  let st := g_object_set_property E resizeOp propScale .gvalueScale st
  let st := g_value_unset E .gvalueScale st
  -- Operation 2: SHARPEN
  let r := CString "sharpen" st
  let sharpenNickname := r.1
  let st := deferCall (.free sharpenNickname) r.2
  let r := vips_operation_new E sharpenNickname st
  let sharpenOp := r.1
  let st := r.2
  if sharpenOp = 0 then
    let r := handleVipsError E st
    returnWith E none (some r.1) r.2
  else
  let st := deferCall (.unref (.operation sharpenOp)) st
  -- the fusion link: the out of resize becomes the in of sharpen
  let r := CString "out" st
  let propOut := r.1
  let st := deferCall (.free propOut) r.2
  let st := g_object_get_property E resizeOp propOut .gvalueResizeOut st
  let st := g_object_set_property E sharpenOp propIn .gvalueResizeOut st
  let st := g_value_unset E .gvalueResizeOut st
  -- the sigma argument
  let st := govips_g_value_set_double .gvalueSigma sigma st
  let r := CString "sigma" st
  let propSigma := r.1
  let st := deferCall (.free propSigma) r.2
  let st := g_object_set_property E sharpenOp propSigma .gvalueSigma st
  let st := g_value_unset E .gvalueSigma st
  -- EXECUTION: build the final operation of the chain
  let r := vips_cache_operation_build E sharpenOp st
  let builtOp := r.1
  let st := r.2
  if builtOp = 0 then
    let r := handleVipsError E st
    returnWith E none (some r.1) r.2
  else
  let st := deferCall (.unref (.operation builtOp)) st
  -- the final output image of the built operation
  let st := g_object_get_property E builtOp propOut .gvalueFinalOut st
  let r := govips_g_value_get_image .gvalueFinalOut st
  let finalImagePtr := r.1
  let st := g_value_unset E .gvalueFinalOut r.2
  let st := g_object_ref E (.image finalImagePtr) st
  let r := newImageRef finalImagePtr st.inImage.format st.inImage.originalFormat none st
  returnWith E (some r.1) none r.2

/-- One call of the function from a fresh frame on engine state `s`. -/
def run {σ : Type} (E : Engine σ) (s : σ) (inImage : ImageRef) (scale sigma : Float64) :
    Outcome σ :=
  pocFusedResizeAndSharpen E scale sigma (St.init s inImage)

/-! ## A reference engine

The native engine is not part of the repository.  For concrete runs, an
executable engine following the contract the spec gives the external
collaborator (sections 4.1, 4.3 and 6): a registry of operations with declared
property kinds, typed property writes, deferred output references, a build that
validates the whole upstream graph, an error buffer, and reference counts.
The general theorems below do not depend on it: they hold for every `Engine`. -/

/-- The declared kind of a property. -/
inductive Kind
  | image
  | double
  | string
deriving DecidableEq, Repr

/-- One declared input property of an operation: name, kind, and whether build
requires it to be set. -/
structure PropDecl where
  name : String
  kind : Kind
  required : Bool
deriving DecidableEq, Repr

/-- The kind of a carrier content, `none` for a zeroed carrier. -/
def GValue.kind : GValue → Option Kind
  | .unset => none
  | .image _ => some .image
  | .double _ => some .double
  | .string _ => some .string

/-- An operation object inside the reference engine.  Its output image lives at
`addr + 1`. -/
structure VOp where
  addr : OpPtr
  nickname : String
  props : List (String × GValue)
  built : Bool
deriving DecidableEq, Repr

/-- The state of the reference engine. -/
structure VState where
  registry : List (String × List PropDecl)
  next : Nat
  ops : List VOp
  refs : List (GPointer × Int)
  errorBuffer : String
deriving DecidableEq, Repr

/-- A double is in range when it is positive and finite: sign bit clear, not
zero, exponent not all ones. -/
def Float64.inRange (d : Float64) : Bool :=
  decide (0 < d.bits) && decide (d.bits < 0x7FF0000000000000)

/-- Add `d` to the reference count of `p`. -/
def adjustRef (p : GPointer) (d : Int) : List (GPointer × Int) → List (GPointer × Int)
  | [] => [(p, d)]
  | (q, n) :: rest => if q = p then (q, n + d) :: rest else (q, n) :: adjustRef p d rest

/-- The reference count of `p`, zero when the engine does not know it. -/
def refCount (p : GPointer) : List (GPointer × Int) → Int
  | [] => 0
  | (q, n) :: rest => if q = p then n else refCount p rest

/-- Find an operation object by address. -/
def findOp (a : OpPtr) (ops : List VOp) : Option VOp :=
  ops.find? (fun o => o.addr = a)

/-- Check the properties of one operation against its declarations: the first
problem found, as the message the engine reports. -/
def checkProps (nickname : String) (props : List (String × GValue)) :
    List PropDecl → Option String
  | [] => none
  | d :: ds =>
    match props.lookup d.name with
    | none =>
      if d.required then some (nickname ++ ": parameter " ++ d.name ++ " not set")
      else checkProps nickname props ds
    | some (.double x) =>
      if x.inRange then checkProps nickname props ds
      else some (nickname ++ ": parameter " ++ d.name ++ " out of range")
    | some _ => checkProps nickname props ds

/-- Validate the graph reachable from operation `a` through image inputs that
are outputs of operations not yet built; `fuel` bounds the depth. -/
def validate (registry : List (String × List PropDecl)) (ops : List VOp) :
    Nat → OpPtr → Option String
  | 0, _ => some "graph too deep"
  | fuel + 1, a =>
    match findOp a ops with
    | none => some "no such operation"
    | some o =>
      match checkProps o.nickname o.props ((registry.lookup o.nickname).getD []) with
      | some m => some m
      | none =>
        match o.props.lookup "in" with
        | some (.image q) =>
          match findOp (q - 1) ops with
          | some up => if up.built then none else validate registry ops fuel up.addr
          | none => none
        | _ => none

/-- Take one reference on every image held in a property list. -/
def takeHeld : List (String × GValue) → List (GPointer × Int) → List (GPointer × Int)
  | [], refs => refs
  | (_, .image p) :: rest, refs =>
    takeHeld rest (if p = 0 then refs else adjustRef (.image p) 1 refs)
  | _ :: rest, refs => takeHeld rest refs

/-- Drop one reference on every image held in a property list. -/
def dropHeld : List (String × GValue) → List (GPointer × Int) → List (GPointer × Int)
  | [], refs => refs
  | (_, .image p) :: rest, refs =>
    dropHeld rest (if p = 0 then refs else adjustRef (.image p) (-1) refs)
  | _ :: rest, refs => dropHeld rest refs

/-- Modelled from the spec: the native engine is an external collaborator
with no code in the repository; this engine follows its contract in spec 4.1,
4.3 and 6.  Creating or building an operation gives a fresh address
`next + 1`, never null; an operation owns its output image and one reference on
every image it holds as a property, and gives them up when its own count
reaches zero. -/
def specEngine : Engine VState where
  vips_operation_new s nickname :=
    match s.registry.lookup nickname with
    | none => (0, { s with errorBuffer := "class " ++ nickname ++ " not found" })
    | some _ =>
      (s.next + 1,
        { s with
          next := s.next + 2
          ops := ⟨s.next + 1, nickname, [], false⟩ :: s.ops
          refs := (.operation (s.next + 1), 1) :: (.image (s.next + 2), 1) :: s.refs })
  g_object_set_property s obj name v :=
    match findOp obj s.ops with
    | none => (some .invalidProperty, s)
    | some o =>
      match ((s.registry.lookup o.nickname).getD []).find? (fun d => d.name = name) with
      | none => (some .invalidProperty, s)
      | some d =>
        if v.kind = some d.kind then
          (none,
            { s with
              ops := s.ops.map (fun x =>
                if x.addr = obj then { x with props := (name, v) :: x.props } else x)
              refs := match v with
                | .image p => if p = 0 then s.refs else adjustRef (.image p) 1 s.refs
                | _ => s.refs })
        else (some .typeMismatch, s)
  g_object_get_property s obj name :=
    match findOp obj s.ops with
    | none => (.unset, s)
    | some o =>
      if name = "out" then
        (.image (o.addr + 1), { s with refs := adjustRef (.image (o.addr + 1)) 1 s.refs })
      else
        match o.props.lookup name with
        | some v => (v, s)
        | none => (.unset, s)
  vips_cache_operation_build s op :=
    match validate s.registry s.ops (s.ops.length + 1) op with
    | some m => (0, { s with errorBuffer := m })
    | none =>
      match findOp op s.ops with
      | none => (0, { s with errorBuffer := "no such operation" })
      | some o =>
        (s.next + 1,
          { s with
            next := s.next + 2
            ops := ⟨s.next + 1, o.nickname, o.props, true⟩ :: s.ops
            refs := (.operation (s.next + 1), 1) :: (.image (s.next + 2), 1) ::
              takeHeld o.props s.refs })
  g_object_ref s p := { s with refs := adjustRef p 1 s.refs }
  g_object_unref s p :=
    let refs := adjustRef p (-1) s.refs
    match p with
    | .image _ => { s with refs := refs }
    | .operation a =>
      if refCount p refs = 0 then
        match findOp a s.ops with
        | some o => { s with refs := dropHeld o.props (adjustRef (.image (a + 1)) (-1) refs) }
        | none => { s with refs := refs }
      else { s with refs := refs }
  vips_error_buffer s := s.errorBuffer
  vips_error_clear s := { s with errorBuffer := "" }

/-- The registry of the two operations the function names, with the properties
it writes. -/
def vipsRegistry : List (String × List PropDecl) :=
  [("resize", [⟨"in", .image, true⟩, ⟨"scale", .double, true⟩]),
   ("sharpen", [⟨"in", .image, true⟩, ⟨"sigma", .double, false⟩])]

/-- A registry whose sharpen takes a radius and knows no sigma. -/
def radiusRegistry : List (String × List PropDecl) :=
  [("resize", [⟨"in", .image, true⟩, ⟨"scale", .double, true⟩]),
   ("sharpen", [⟨"in", .image, true⟩, ⟨"radius", .double, false⟩])]

/-- A registry without the sharpen operation. -/
def resizeOnlyRegistry : List (String × List PropDecl) :=
  [("resize", [⟨"in", .image, true⟩, ⟨"scale", .double, true⟩])]

/-- An engine state holding one loaded image at address 100. -/
def vstate0 (registry : List (String × List PropDecl)) : VState :=
  { registry := registry, next := 199, ops := [], refs := [(.image 100, 1)],
    errorBuffer := "" }

/-- The caller handle on the loaded image. -/
def sampleImage : ImageRef := ⟨100, 1, 1, none⟩

/-- The double 0.5. -/
def half : Float64 := ⟨0x3FE0000000000000⟩

/-- The double 1.5. -/
def oneAndHalf : Float64 := ⟨0x3FF8000000000000⟩

/-- The double -0.5. -/
def minusHalf : Float64 := ⟨0xBFE0000000000000⟩

/-! ## The four executions

Every call takes one of four paths.  Each is written out as the exact list of
calls made, with the values the engine returned as parameters. -/

/-- The image pointer a carrier content yields to `govips_g_value_get_image`. -/
def GValue.imagePtr : GValue → ImagePtr
  | .image p => p
  | _ => 0

/-- Calls made up to and including the allocation of the sharpen nickname. -/
def resizeStage (image : ImagePtr) (scale : Float64) (resizeOp : OpPtr)
    (o1 o2 : Option PropError) : List Event :=
  [.cString "resize", .operationNew "resize" resizeOp,
   .valueSetImage .gvalueIn image, .cString "in",
   .setProperty resizeOp "in" .gvalueIn (.image image) o1,
   .valueUnset .gvalueIn (.image image),
   .valueSetDouble .gvalueScale scale, .cString "scale",
   .setProperty resizeOp "scale" .gvalueScale (.double scale) o2,
   .valueUnset .gvalueScale (.double scale),
   .cString "sharpen"]

/-- Calls made from the creation of the sharpen descriptor up to the build. -/
def sharpenStage (sigma : Float64) (resizeOp sharpenOp : OpPtr) (v : GValue)
    (o3 o4 : Option PropError) : List Event :=
  [.operationNew "sharpen" sharpenOp, .cString "out",
   .getProperty resizeOp "out" .gvalueResizeOut v,
   .setProperty sharpenOp "in" .gvalueResizeOut v o3,
   .valueUnset .gvalueResizeOut v,
   .valueSetDouble .gvalueSigma sigma, .cString "sigma",
   .setProperty sharpenOp "sigma" .gvalueSigma (.double sigma) o4,
   .valueUnset .gvalueSigma (.double sigma)]

/-- Deferred calls pending once the resize descriptor exists and the sharpen
nickname is allocated. -/
def cleanupResize (resizeOp : OpPtr) : List Event :=
  [.free "sharpen", .free "scale", .free "in", .unref (.operation resizeOp), .free "resize"]

/-- Deferred calls pending once both descriptors exist and are wired. -/
def cleanupBoth (resizeOp sharpenOp : OpPtr) : List Event :=
  [.free "sigma", .free "out", .unref (.operation sharpenOp)] ++ cleanupResize resizeOp

/-- Path 1: the resize descriptor could not be created. -/
def traceNoResize (msg : String) : List Event :=
  [.cString "resize", .operationNew "resize" 0, .handleVipsError msg, .free "resize"]

/-- Path 2: the sharpen descriptor could not be created. -/
def traceNoSharpen (image : ImagePtr) (scale : Float64) (resizeOp : OpPtr)
    (o1 o2 : Option PropError) (msg : String) : List Event :=
  resizeStage image scale resizeOp o1 o2 ++
    [.operationNew "sharpen" 0, .handleVipsError msg] ++ cleanupResize resizeOp

/-- Path 3: the build failed. -/
def traceBuildFailed (image : ImagePtr) (scale sigma : Float64) (resizeOp sharpenOp : OpPtr)
    (v : GValue) (o1 o2 o3 o4 : Option PropError) (msg : String) : List Event :=
  resizeStage image scale resizeOp o1 o2 ++ sharpenStage sigma resizeOp sharpenOp v o3 o4 ++
    [.build sharpenOp 0, .handleVipsError msg] ++ cleanupBoth resizeOp sharpenOp

/-- Calls made after a successful build, up to the return statement. -/
def extractStage (inImage : ImageRef) (builtOp : OpPtr) (vf : GValue) : List Event :=
  [.getProperty builtOp "out" .gvalueFinalOut vf,
   .valueGetImage .gvalueFinalOut vf.imagePtr,
   .valueUnset .gvalueFinalOut vf,
   .ref (.image vf.imagePtr),
   .newImageRef vf.imagePtr inImage.format inImage.originalFormat]

/-- Path 4: success. -/
def traceSuccess (inImage : ImageRef) (scale sigma : Float64)
    (resizeOp sharpenOp builtOp : OpPtr) (v vf : GValue)
    (o1 o2 o3 o4 : Option PropError) : List Event :=
  resizeStage inImage.image scale resizeOp o1 o2 ++
    sharpenStage sigma resizeOp sharpenOp v o3 o4 ++
    [.build sharpenOp builtOp] ++ extractStage inImage builtOp vf ++
    [.unref (.operation builtOp)] ++ cleanupBoth resizeOp sharpenOp

/-- The four executions of the function on arguments `inImage`, `scale`,
`sigma`: the trace of calls and the two return values. -/
inductive Execution (inImage : ImageRef) (scale sigma : Float64) :
    List Event → Option ImageRef → Option GoError → Prop
  | noResize (msg : String) :
      Execution inImage scale sigma (traceNoResize msg) none (some ⟨msg⟩)
  | noSharpen (resizeOp : OpPtr) (o1 o2 : Option PropError) (msg : String)
      (hr : resizeOp ≠ 0) :
      Execution inImage scale sigma
        (traceNoSharpen inImage.image scale resizeOp o1 o2 msg) none (some ⟨msg⟩)
  | buildFailed (resizeOp sharpenOp : OpPtr) (v : GValue) (o1 o2 o3 o4 : Option PropError)
      (msg : String) (hr : resizeOp ≠ 0) (hs : sharpenOp ≠ 0) :
      Execution inImage scale sigma
        (traceBuildFailed inImage.image scale sigma resizeOp sharpenOp v o1 o2 o3 o4 msg)
        none (some ⟨msg⟩)
  | success (resizeOp sharpenOp builtOp : OpPtr) (v vf : GValue)
      (o1 o2 o3 o4 : Option PropError)
      (hr : resizeOp ≠ 0) (hs : sharpenOp ≠ 0) (hb : builtOp ≠ 0) :
      Execution inImage scale sigma
        (traceSuccess inImage scale sigma resizeOp sharpenOp builtOp v vf o1 o2 o3 o4)
        (some ⟨vf.imagePtr, inImage.format, inImage.originalFormat, none⟩) none

/-! ## Observations on a trace -/

/-- The calls made before the first call satisfying `p`. -/
def beforeFirst (p : Event → Bool) (tr : List Event) : List Event :=
  tr.takeWhile (fun e => !p e)

/-- The calls made after the first call satisfying `p`. -/
def afterFirst (p : Event → Bool) (tr : List Event) : List Event :=
  (tr.dropWhile (fun e => !p e)).tail

/-- The operation object a call handed to the function: a non-null result of
`vips_operation_new` or of `vips_cache_operation_build`. -/
def Event.created : Event → Option GPointer
  | .operationNew _ p => if p = 0 then none else some (.operation p)
  | .build _ p => if p = 0 then none else some (.operation p)
  | _ => none

/-- The object a call released with `g_object_unref`. -/
def Event.released : Event → Option GPointer
  | .unref p => some p
  | _ => none

/-- The operation objects handed to the function, in order of creation. -/
def createdObjects (tr : List Event) : List GPointer :=
  tr.filterMap Event.created

/-- The objects the function released, in order of release. -/
def releasedObjects (tr : List Event) : List GPointer :=
  tr.filterMap Event.released

/-- A `g_object_unref` call. -/
def Event.isRelease : Event → Bool
  | .unref _ => true
  | _ => false

/-- A cleanup call: `C.free` of a C string or `g_object_unref`. -/
def Event.isCleanup : Event → Bool
  | .free _ => true
  | .unref _ => true
  | _ => false

/-- A creation or build call that returned the null pointer. -/
def Event.returnedNil : Event → Bool
  | .operationNew _ p => decide (p = 0)
  | .build _ p => decide (p = 0)
  | _ => false

/-- What runs after a failure: reading the engine error, then cleanup. -/
def Event.isErrorOrCleanup : Event → Bool
  | .handleVipsError _ => true
  | .free _ => true
  | .unref _ => true
  | _ => false

/-- A `vips_cache_operation_build` call. -/
def Event.isBuild : Event → Bool
  | .build _ _ => true
  | _ => false

/-- The build calls of a trace: argument and result. -/
def builds (tr : List Event) : List (OpPtr × OpPtr) :=
  tr.filterMap (fun e => match e with
    | .build op b => some (op, b)
    | _ => none)

/-- The descriptors created in a trace: nickname and (non-null) address. -/
def descriptors (tr : List Event) : List (String × OpPtr) :=
  tr.filterMap (fun e => match e with
    | .operationNew n p => if p = 0 then none else some (n, p)
    | _ => none)

/-- The property writes of a trace: object, property name, value written. -/
def propertySets (tr : List Event) : List (OpPtr × String × GValue) :=
  tr.filterMap (fun e => match e with
    | .setProperty obj name _ v _ => some (obj, name, v)
    | _ => none)

/-- The property reads of a trace: object, property name, value read. -/
def propertyGets (tr : List Event) : List (OpPtr × String × GValue) :=
  tr.filterMap (fun e => match e with
    | .getProperty obj name _ v => some (obj, name, v)
    | _ => none)

/-- A property write the engine refused. -/
def Event.isRefusedSet : Event → Bool
  | .setProperty _ _ _ _ (some _) => true
  | _ => false

/-- The change a call makes, on behalf of the function, to the number of
references held on the image `p`: a carrier that receives an image holds one
reference, unsetting it drops that reference, `g_object_ref` adds one and
`g_object_unref` drops one.  Null pointers carry no reference. -/
def Event.imageDelta (p : ImagePtr) : Event → Int
  | .valueSetImage _ q => if q = p ∧ q ≠ 0 then 1 else 0
  | .getProperty _ _ _ (.image q) => if q = p ∧ q ≠ 0 then 1 else 0
  | .valueUnset _ (.image q) => if q = p ∧ q ≠ 0 then -1 else 0
  | .ref (.image q) => if q = p ∧ q ≠ 0 then 1 else 0
  | .unref (.image q) => if q = p ∧ q ≠ 0 then -1 else 0
  | _ => 0

/-- The net number of references on image `p` the function holds after the
calls of `tr`. -/
def netImageRefs (p : ImagePtr) (tr : List Event) : Int :=
  (tr.map (Event.imageDelta p)).sum

/-- The carrier a call operates on. -/
def Event.carrier : Event → Option Carrier
  | .valueSetImage c _ => some c
  | .valueSetDouble c _ => some c
  | .setProperty _ _ c _ _ => some c
  | .getProperty _ _ c _ => some c
  | .valueGetImage c _ => some c
  | .valueUnset c _ => some c
  | _ => none

/-- The calls of a trace that operate on carrier `c`, in order. -/
def carrierCalls (c : Carrier) (tr : List Event) : List Event :=
  tr.filter (fun e => decide (e.carrier = some c))

/-- A call that initialises a carrier with the value `v`. -/
def Event.initialises (v : GValue) : Event → Bool
  | .valueSetImage _ p => decide (v = .image p)
  | .valueSetDouble _ d => decide (v = .double d)
  | .getProperty _ _ _ w => decide (v = w)
  | _ => false

/-- A call that consumes the value `v` of a carrier: a property write moves it
into an operation, `govips_g_value_get_image` reads it out. -/
def Event.consumes (v : GValue) : Event → Bool
  | .setProperty _ _ _ w _ => decide (v = w)
  | .valueGetImage _ p => decide (v.imagePtr = p)
  | _ => false

/-! ## The engine state at the build call -/

/-- The engine side of the calls made from entry up to the build call, on a
run in which both descriptors are created: the two descriptors and the engine
state in which build is called. -/
structure Wired (σ : Type) where
  resizeOp : OpPtr
  sharpenOp : OpPtr
  engine : σ

/-- The engine transitions of the function from entry up to the build call, in
order: create resize, the carrier takes the input image, write in, unset the
carrier, write scale, create sharpen, read the out of resize, write it as in,
unset the carrier, write sigma.  `run_builds_wired` shows this is the state in
which the function calls build. -/
def wired {σ : Type} (E : Engine σ) (s : σ) (inImage : ImageRef) (scale sigma : Float64) :
    Wired σ :=
  let a := E.vips_operation_new s "resize"
  let s1 := if inImage.image = 0 then a.2 else E.g_object_ref a.2 (.image inImage.image)
  let b := E.g_object_set_property s1 a.1 "in" (.image inImage.image)
  let s2 := if inImage.image = 0 then b.2 else E.g_object_unref b.2 (.image inImage.image)
  let c := E.g_object_set_property s2 a.1 "scale" (.double scale)
  let d := E.vips_operation_new c.2 "sharpen"
  let g := E.g_object_get_property d.2 a.1 "out"
  let e := E.g_object_set_property g.2 d.1 "in" g.1
  let s3 := match g.1 with
    | .image p => if p = 0 then e.2 else E.g_object_unref e.2 (.image p)
    | _ => e.2
  let f := E.g_object_set_property s3 d.1 "sigma" (.double sigma)
  ⟨a.1, d.1, f.2⟩

/-! ## The execution lemma -/

/-- Every call of the function, on every engine and from every engine state, is
one of the four executions. -/
theorem run_execution {σ : Type} (E : Engine σ) (s : σ) (inImage : ImageRef)
    (scale sigma : Float64) :
    Execution inImage scale sigma (run E s inImage scale sigma).st.trace
      (run E s inImage scale sigma).image (run E s inImage scale sigma).err := by
  unfold run pocFusedResizeAndSharpen
  dsimp only
  split_ifs with h1 h2 h3
  · simp [returnWith, runDeferred, execDeferred, emit, deferCall, CString,
      vips_operation_new, handleVipsError, St.init] at h1 ⊢
    rw [h1]
    exact Execution.noResize _
  · simp [returnWith, runDeferred, execDeferred, emit, deferCall, CString,
      vips_operation_new, handleVipsError, St.init, govips_g_value_set_image,
      govips_g_value_set_double, g_object_set_property, g_value_unset, g_object_unref,
      setCarrier] at h1 h2 ⊢
    rw [h2]
    exact Execution.noSharpen _ _ _ _ h1
  · simp [returnWith, runDeferred, execDeferred, emit, deferCall, CString,
      vips_operation_new, handleVipsError, St.init, govips_g_value_set_image,
      govips_g_value_set_double, g_object_set_property, g_value_unset, g_object_unref,
      g_object_get_property, vips_cache_operation_build, setCarrier] at h1 h2 h3 ⊢
    rw [h3]
    exact Execution.buildFailed _ _ _ _ _ _ _ _ h1 h2
  · simp [returnWith, runDeferred, execDeferred, emit, deferCall, CString,
      vips_operation_new, handleVipsError, St.init, govips_g_value_set_image,
      govips_g_value_set_double, g_object_set_property, g_value_unset, g_object_unref,
      g_object_get_property, vips_cache_operation_build, govips_g_value_get_image,
      g_object_ref, newImageRef, setCarrier] at h1 h2 h3 ⊢
    exact Execution.success _ _ _ _ _ _ _ _ _ h1 h2 h3

/-- When the function returns, on every path, the handle behind `inImage` is
what it was on entry, no deferred call is pending and every carrier is zeroed. -/
theorem run_final_state {σ : Type} (E : Engine σ) (s : σ) (inImage : ImageRef)
    (scale sigma : Float64) :
    (run E s inImage scale sigma).st.inImage = inImage ∧
    (run E s inImage scale sigma).st.deferred = [] ∧
    ∀ c, (run E s inImage scale sigma).st.carriers c = .unset := by
  unfold run pocFusedResizeAndSharpen
  dsimp only
  split_ifs with h1 h2 h3 <;>
    refine ⟨?_, ?_, fun c => ?_⟩ <;>
    first
      | (cases c <;>
          simp [returnWith, runDeferred, execDeferred, emit, deferCall, CString,
            vips_operation_new, handleVipsError, St.init, govips_g_value_set_image,
            govips_g_value_set_double, g_object_set_property, g_value_unset,
            g_object_unref, g_object_get_property, vips_cache_operation_build,
            govips_g_value_get_image, g_object_ref, newImageRef, setCarrier])
      | simp [returnWith, runDeferred, execDeferred, emit, deferCall, CString,
          vips_operation_new, handleVipsError, St.init, govips_g_value_set_image,
          govips_g_value_set_double, g_object_set_property, g_value_unset,
          g_object_unref, g_object_get_property, vips_cache_operation_build,
          govips_g_value_get_image, g_object_ref, newImageRef, setCarrier]

/-- When the build call returns null, the error the function returns carries
the content of the engine error buffer as the failed build left it. -/
theorem run_build_failure {σ : Type} (E : Engine σ) (s : σ) (inImage : ImageRef)
    (scale sigma : Float64) (op : OpPtr)
    (h : (op, 0) ∈ builds (run E s inImage scale sigma).st.trace) :
    ∃ s1, (E.vips_cache_operation_build s1 op).1 = 0 ∧
      (run E s inImage scale sigma).err
        = some ⟨E.vips_error_buffer (E.vips_cache_operation_build s1 op).2⟩ := by
  revert h
  unfold run pocFusedResizeAndSharpen
  dsimp only
  split_ifs with h1 h2 h3 <;> intro h
  · simp [returnWith, runDeferred, execDeferred, emit, deferCall, CString,
      vips_operation_new, handleVipsError, St.init, builds] at h
  · simp [returnWith, runDeferred, execDeferred, emit, deferCall, CString,
      vips_operation_new, handleVipsError, St.init, govips_g_value_set_image,
      govips_g_value_set_double, g_object_set_property, g_value_unset, g_object_unref,
      setCarrier, builds] at h
  · simp [returnWith, runDeferred, execDeferred, emit, deferCall, CString,
      vips_operation_new, handleVipsError, St.init, govips_g_value_set_image,
      govips_g_value_set_double, g_object_set_property, g_value_unset, g_object_unref,
      g_object_get_property, vips_cache_operation_build, setCarrier, builds] at h h3 ⊢
    obtain ⟨rfl, -⟩ := h
    exact ⟨_, h3, rfl⟩
  · simp [returnWith, runDeferred, execDeferred, emit, deferCall, CString,
      vips_operation_new, handleVipsError, St.init, govips_g_value_set_image,
      govips_g_value_set_double, g_object_set_property, g_value_unset, g_object_unref,
      g_object_get_property, vips_cache_operation_build, govips_g_value_get_image,
      g_object_ref, newImageRef, setCarrier, builds] at h h3
    exact absurd h.2.symm h3

/-- When both descriptors are created, the descriptors the function created are
the two `wired` names, and the function calls build once, on the sharpen
descriptor, in the engine state `wired` computes. -/
theorem run_builds_wired {σ : Type} (E : Engine σ) (s : σ) (inImage : ImageRef)
    (scale sigma : Float64)
    (hr : (wired E s inImage scale sigma).resizeOp ≠ 0)
    (hs : (wired E s inImage scale sigma).sharpenOp ≠ 0) :
    descriptors (run E s inImage scale sigma).st.trace
      = [("resize", (wired E s inImage scale sigma).resizeOp),
         ("sharpen", (wired E s inImage scale sigma).sharpenOp)] ∧
    builds (run E s inImage scale sigma).st.trace
      = [((wired E s inImage scale sigma).sharpenOp,
          (E.vips_cache_operation_build (wired E s inImage scale sigma).engine
            (wired E s inImage scale sigma).sharpenOp).1)] := by
  have hr2 := hr
  have hs2 := hs
  simp only [wired] at hr2 hs2
  unfold run pocFusedResizeAndSharpen
  dsimp only
  split_ifs with h1 h2 h3
  · simp [St.init, CString, deferCall, vips_operation_new, emit] at h1
    exact absurd h1 hr2
  · simp [returnWith, runDeferred, execDeferred, emit, deferCall, CString,
      vips_operation_new, handleVipsError, St.init, govips_g_value_set_image,
      govips_g_value_set_double, g_object_set_property, g_value_unset, g_object_unref,
      setCarrier] at h2
    exact absurd h2 hs2
  · simp [returnWith, runDeferred, execDeferred, emit, deferCall, CString,
      vips_operation_new, handleVipsError, St.init, govips_g_value_set_image,
      govips_g_value_set_double, g_object_set_property, g_value_unset, g_object_unref,
      g_object_get_property, vips_cache_operation_build, setCarrier, builds,
      descriptors, wired, hr2, hs2]
  · simp [returnWith, runDeferred, execDeferred, emit, deferCall, CString,
      vips_operation_new, handleVipsError, St.init, govips_g_value_set_image,
      govips_g_value_set_double, g_object_set_property, g_value_unset, g_object_unref,
      g_object_get_property, vips_cache_operation_build, govips_g_value_get_image,
      g_object_ref, newImageRef, setCarrier, builds, descriptors, wired, hr2, hs2]

/-! ## The reference engine reports its failures -/

/-- Appending a non-empty string gives a non-empty string. -/
theorem append_ne_empty (a b : String) (h : b ≠ "") : a ++ b ≠ "" := by
  intro hab
  apply h
  have h2 := congrArg String.data hab
  simp at h2
  exact String.ext h2.2

/-- A problem found in the properties of an operation has a non-empty message. -/
theorem checkProps_message (n : String) (props : List (String × GValue))
    (ds : List PropDecl) (m : String) (h : checkProps n props ds = some m) : m ≠ "" := by
  induction ds with
  | nil => simp [checkProps] at h
  | cons d ds ih =>
    unfold checkProps at h
    split at h
    · split_ifs at h
      · simp only [Option.some.injEq] at h
        subst h
        exact append_ne_empty _ _ (by decide)
      · exact ih h
    · split_ifs at h
      · exact ih h
      · simp only [Option.some.injEq] at h
        subst h
        exact append_ne_empty _ _ (by decide)
    · exact ih h

/-- A graph the reference engine rejects is rejected with a non-empty message. -/
theorem validate_message (registry : List (String × List PropDecl)) (ops : List VOp)
    (fuel : Nat) (a : OpPtr) (m : String) (h : validate registry ops fuel a = some m) :
    m ≠ "" := by
  induction fuel generalizing a with
  | zero =>
    simp only [validate, Option.some.injEq] at h
    subst h
    decide
  | succ fuel ih =>
    unfold validate at h
    split at h
    · simp only [Option.some.injEq] at h
      subst h
      decide
    · split at h
      · rename_i m2 hm
        simp only [Option.some.injEq] at h
        subst h
        exact checkProps_message _ _ _ _ hm
      · split at h
        · split at h
          · split_ifs at h
            exact ih _ h
          · simp at h
        · simp at h

/-- The reference engine keeps the contract of spec 4.3 and 6: a build that
returns null leaves a non-empty message in the error buffer. -/
theorem specEngine_build_message (s1 : VState) (op : OpPtr)
    (h : (specEngine.vips_cache_operation_build s1 op).1 = 0) :
    specEngine.vips_error_buffer (specEngine.vips_cache_operation_build s1 op).2 ≠ "" := by
  simp only [specEngine] at h ⊢
  split at h
  · rename_i m hm
    exact validate_message _ _ _ _ _ hm
  · split at h
    · exact (by decide : "no such operation" ≠ "")
    · simp at h

/-! ## The reference engine rejects out-of-range parameters -/

/-- A negative double (sign bit set) is out of range. -/
theorem negative_out_of_range (d : Float64) (h : 2 ^ 63 ≤ d.bits) : d.inRange = false := by
  simp only [Float64.inRange, Bool.and_eq_false_iff, decide_eq_false_iff_not]
  right
  omega

/-- On the reference engine with the vips registry, from any engine state, the
function creates resize at `next + 1` and sharpen at `next + 3`, and when it
calls build the engine holds the wired graph: sharpen with sigma and, as in,
the output image of resize; resize with scale and the input image. -/
theorem wired_specEngine (s : VState) (hreg : s.registry = vipsRegistry)
    (inImage : ImageRef) (scale sigma : Float64) :
    (wired specEngine s inImage scale sigma).resizeOp = s.next + 1 ∧
    (wired specEngine s inImage scale sigma).sharpenOp = s.next + 3 ∧
    (wired specEngine s inImage scale sigma).engine.registry = vipsRegistry ∧
    ∃ rest, (wired specEngine s inImage scale sigma).engine.ops =
      ⟨s.next + 3, "sharpen", [("sigma", .double sigma), ("in", .image (s.next + 2))],
        false⟩ ::
      ⟨s.next + 1, "resize", [("scale", .double scale), ("in", .image inImage.image)],
        false⟩ :: rest := by
  by_cases hi : inImage.image = 0 <;>
    simp [wired, specEngine, hreg, vipsRegistry, findOp, GValue.kind, hi, List.lookup]

/-- The build of the reference engine returns null on a wired graph in which
the scale of resize or the sigma of sharpen is out of range. -/
theorem build_rejects_out_of_range (s1 : VState) (n : Nat) (image : ImagePtr)
    (scale sigma : Float64) (rest : List VOp)
    (hreg : s1.registry = vipsRegistry)
    (hops : s1.ops =
      ⟨n + 3, "sharpen", [("sigma", .double sigma), ("in", .image (n + 2))], false⟩ ::
      ⟨n + 1, "resize", [("scale", .double scale), ("in", .image image)], false⟩ :: rest)
    (h : scale.inRange = false ∨ sigma.inRange = false) :
    (specEngine.vips_cache_operation_build s1 (n + 3)).1 = 0 := by
  cases hsg : sigma.inRange <;> cases hsc : scale.inRange <;>
    simp [specEngine, hreg, hops, validate, findOp, checkProps, vipsRegistry, List.lookup,
      hsg, hsc] at h ⊢

/-! ## Lifetimes of operation objects -/

/-- C2: on every exit path the objects released are exactly the operation
objects created on that path, each once, in reverse order of creation; nothing
else is released; and once the first release has happened only cleanup calls
follow, so no descriptor or built operation reaches an engine call after its
release. -/
theorem released_exactly_created {σ : Type} (E : Engine σ) (s : σ) (inImage : ImageRef)
    (scale sigma : Float64) :
    releasedObjects (run E s inImage scale sigma).st.trace
        = (createdObjects (run E s inImage scale sigma).st.trace).reverse ∧
      (afterFirst Event.isRelease (run E s inImage scale sigma).st.trace).all
        Event.isCleanup = true := by
  have h := run_execution E s inImage scale sigma
  generalize (run E s inImage scale sigma).st.trace = tr at h
  generalize (run E s inImage scale sigma).image = im at h
  generalize (run E s inImage scale sigma).err = er at h
  cases h <;>
    simp [traceNoResize, traceNoSharpen, traceBuildFailed, traceSuccess, resizeStage,
      sharpenStage, extractStage, cleanupResize, cleanupBoth, releasedObjects,
      createdObjects, afterFirst, Event.created, Event.released, Event.isRelease,
      Event.isCleanup, List.filterMap_cons, List.dropWhile_cons, *]

/-! ## Results and failures -/

/-- C3: the function returns either an image and no error, or no image and an
error; the error case is exactly the case where a creation call or the build call
returned null; and after the first such call only the error read and
cleanup calls are made. -/
theorem image_or_error {σ : Type} (E : Engine σ) (s : σ) (inImage : ImageRef)
    (scale sigma : Float64) :
    (((run E s inImage scale sigma).image.isSome = true ∧
        (run E s inImage scale sigma).err = none) ∨
      ((run E s inImage scale sigma).image = none ∧
        (run E s inImage scale sigma).err.isSome = true)) ∧
    (run E s inImage scale sigma).err.isSome
      = (run E s inImage scale sigma).st.trace.any Event.returnedNil ∧
    (afterFirst Event.returnedNil (run E s inImage scale sigma).st.trace).all
      Event.isErrorOrCleanup = true := by
  have h := run_execution E s inImage scale sigma
  generalize (run E s inImage scale sigma).st.trace = tr at h
  generalize (run E s inImage scale sigma).image = im at h
  generalize (run E s inImage scale sigma).err = er at h
  cases h <;>
    simp [traceNoResize, traceNoSharpen, traceBuildFailed, traceSuccess, resizeStage,
      sharpenStage, extractStage, cleanupResize, cleanupBoth, afterFirst,
      Event.returnedNil, Event.isErrorOrCleanup, List.dropWhile_cons, *]

/-! ## Ownership of the returned image -/

/-- C4: on success, with a non-null output image, the `g_object_ref` on the
returned image is made before any release (in particular before the release of
the built operation, which comes after it), and over the whole call the
function acquires exactly one more reference on that image than it drops. -/
theorem output_reference_before_release {σ : Type} (E : Engine σ) (s : σ)
    (inImage : ImageRef) (scale sigma : Float64) (out : ImageRef)
    (h : (run E s inImage scale sigma).image = some out) (hn : out.image ≠ 0) :
    Event.ref (.image out.image) ∈ (run E s inImage scale sigma).st.trace ∧
    (beforeFirst (fun e => decide (e = Event.ref (.image out.image)))
      (run E s inImage scale sigma).st.trace).all (fun e => !e.isRelease) = true ∧
    (∃ op b, b ≠ 0 ∧
      (op, b) ∈ builds (beforeFirst (fun e => decide (e = Event.ref (.image out.image)))
        (run E s inImage scale sigma).st.trace) ∧
      Event.unref (.operation b) ∈
        afterFirst (fun e => decide (e = Event.ref (.image out.image)))
          (run E s inImage scale sigma).st.trace) ∧
    netImageRefs out.image (run E s inImage scale sigma).st.trace = 1 := by
  have hx := run_execution E s inImage scale sigma
  generalize (run E s inImage scale sigma).st.trace = tr at hx
  generalize (run E s inImage scale sigma).image = im at hx h
  generalize (run E s inImage scale sigma).err = er at hx
  cases hx with
  | noResize msg => simp at h
  | noSharpen resizeOp o1 o2 msg hr => simp at h
  | buildFailed resizeOp sharpenOp v o1 o2 o3 o4 msg hr hs => simp at h
  | success resizeOp sharpenOp builtOp v vf o1 o2 o3 o4 hr hs hb =>
    simp only [Option.some.injEq] at h
    subst h
    simp only at hn
    refine ⟨?_, ?_, ⟨sharpenOp, builtOp, hb, ?_, ?_⟩, ?_⟩
    · simp [traceSuccess, extractStage]
    · simp [traceSuccess, resizeStage, sharpenStage, extractStage, cleanupBoth,
        cleanupResize, beforeFirst, List.takeWhile_cons, Event.isRelease]
    · simp [traceSuccess, resizeStage, sharpenStage, extractStage, cleanupBoth,
        cleanupResize, beforeFirst, List.takeWhile_cons, builds, List.filterMap_cons]
    · simp [traceSuccess, resizeStage, sharpenStage, extractStage, cleanupBoth,
        cleanupResize, afterFirst, List.dropWhile_cons]
    · cases vf <;> simp [GValue.imagePtr] at hn
      cases v <;>
        simp [traceSuccess, resizeStage, sharpenStage, extractStage, cleanupBoth,
          cleanupResize, netImageRefs, Event.imageDelta, GValue.imagePtr, hn] <;>
        split_ifs <;> omega

/-! ## The wired graph and its single evaluation -/

/-- C5: whenever build is called, the calls made before it created exactly the
resize and the sharpen descriptor, read exactly one property (the out of
resize, giving `v`), and wrote exactly four: in (the input image) and scale on
resize, in (that same `v`) and sigma on sharpen; build is called on sharpen. -/
theorem graph_wired_at_build {σ : Type} (E : Engine σ) (s : σ) (inImage : ImageRef)
    (scale sigma : Float64) (op b : OpPtr)
    (h : (op, b) ∈ builds (run E s inImage scale sigma).st.trace) :
    ∃ resizeOp v,
      descriptors (beforeFirst Event.isBuild (run E s inImage scale sigma).st.trace)
        = [("resize", resizeOp), ("sharpen", op)] ∧
      propertyGets (beforeFirst Event.isBuild (run E s inImage scale sigma).st.trace)
        = [(resizeOp, "out", v)] ∧
      propertySets (beforeFirst Event.isBuild (run E s inImage scale sigma).st.trace)
        = [(resizeOp, "in", .image inImage.image), (resizeOp, "scale", .double scale),
           (op, "in", v), (op, "sigma", .double sigma)] := by
  have hx := run_execution E s inImage scale sigma
  generalize (run E s inImage scale sigma).st.trace = tr at hx h
  generalize (run E s inImage scale sigma).image = im at hx
  generalize (run E s inImage scale sigma).err = er at hx
  cases hx with
  | noResize msg => simp [traceNoResize, builds] at h
  | noSharpen resizeOp o1 o2 msg hr =>
    simp [traceNoSharpen, resizeStage, cleanupResize, builds] at h
  | buildFailed resizeOp sharpenOp v o1 o2 o3 o4 msg hr hs =>
    simp [traceBuildFailed, resizeStage, sharpenStage, cleanupBoth, cleanupResize,
      builds] at h
    obtain ⟨rfl, rfl⟩ := h
    refine ⟨resizeOp, v, ?_, ?_, ?_⟩ <;>
      simp [traceBuildFailed, resizeStage, sharpenStage, cleanupBoth, cleanupResize,
        beforeFirst, descriptors, propertyGets, propertySets, Event.isBuild,
        List.takeWhile_cons, List.filterMap_cons, hr, hs]
  | success resizeOp sharpenOp builtOp v vf o1 o2 o3 o4 hr hs hb =>
    simp [traceSuccess, resizeStage, sharpenStage, extractStage, cleanupBoth,
      cleanupResize, builds] at h
    obtain ⟨rfl, rfl⟩ := h
    refine ⟨resizeOp, v, ?_, ?_, ?_⟩ <;>
      simp [traceSuccess, resizeStage, sharpenStage, extractStage, cleanupBoth,
        cleanupResize, beforeFirst, descriptors, propertyGets, propertySets,
        Event.isBuild, List.takeWhile_cons, List.filterMap_cons, hr, hs]

/-- C6: build is called at most once, and exactly once when both descriptors
were created; it is called on the sharpen descriptor, after the four property
writes and with no write after it, never on a resize descriptor distinct from
the sharpen one; and no call made before it is a build. -/
theorem build_once_at_end {σ : Type} (E : Engine σ) (s : σ) (inImage : ImageRef)
    (scale sigma : Float64) :
    (builds (run E s inImage scale sigma).st.trace).length ≤ 1 ∧
    ((builds (run E s inImage scale sigma).st.trace).length = 1 ↔
      (descriptors (run E s inImage scale sigma).st.trace).length = 2) ∧
    builds (beforeFirst Event.isBuild (run E s inImage scale sigma).st.trace) = [] ∧
    (∀ op b, (op, b) ∈ builds (run E s inImage scale sigma).st.trace →
      ∃ resizeOp,
        descriptors (run E s inImage scale sigma).st.trace
          = [("resize", resizeOp), ("sharpen", op)] ∧
        (propertySets (beforeFirst Event.isBuild
            (run E s inImage scale sigma).st.trace)).map (fun x => (x.1, x.2.1))
          = [(resizeOp, "in"), (resizeOp, "scale"), (op, "in"), (op, "sigma")] ∧
        propertySets (afterFirst Event.isBuild (run E s inImage scale sigma).st.trace)
          = [] ∧
        (resizeOp ≠ op →
          ∀ b2, (resizeOp, b2) ∉ builds (run E s inImage scale sigma).st.trace)) := by
  have hx := run_execution E s inImage scale sigma
  generalize (run E s inImage scale sigma).st.trace = tr at hx
  generalize (run E s inImage scale sigma).image = im at hx
  generalize (run E s inImage scale sigma).err = er at hx
  cases hx with
  | noResize msg =>
    simp [traceNoResize, builds, descriptors, beforeFirst, Event.isBuild,
      List.takeWhile_cons, List.filterMap_cons]
  | noSharpen resizeOp o1 o2 msg hr =>
    simp [traceNoSharpen, resizeStage, cleanupResize, builds, descriptors, beforeFirst,
      Event.isBuild, List.takeWhile_cons, List.filterMap_cons, hr]
  | buildFailed resizeOp sharpenOp v o1 o2 o3 o4 msg hr hs =>
    refine ⟨?_, ?_, ?_, ?_⟩
    · simp [traceBuildFailed, resizeStage, sharpenStage, cleanupBoth, cleanupResize,
        builds, List.filterMap_cons]
    · simp [traceBuildFailed, resizeStage, sharpenStage, cleanupBoth, cleanupResize,
        builds, descriptors, List.filterMap_cons, hr, hs]
    · simp [traceBuildFailed, resizeStage, sharpenStage, cleanupBoth, cleanupResize,
        builds, beforeFirst, Event.isBuild, List.takeWhile_cons, List.filterMap_cons]
    · intro op b h
      simp [traceBuildFailed, resizeStage, sharpenStage, cleanupBoth, cleanupResize,
        builds] at h
      obtain ⟨rfl, rfl⟩ := h
      refine ⟨resizeOp, ?_, ?_, ?_, ?_⟩
      · simp [traceBuildFailed, resizeStage, sharpenStage, cleanupBoth, cleanupResize,
          descriptors, List.filterMap_cons, hr, hs]
      · simp [traceBuildFailed, resizeStage, sharpenStage, cleanupBoth, cleanupResize,
          beforeFirst, propertySets, Event.isBuild, List.takeWhile_cons,
          List.filterMap_cons]
      · simp [traceBuildFailed, resizeStage, sharpenStage, cleanupBoth, cleanupResize,
          afterFirst, propertySets, Event.isBuild, List.dropWhile_cons,
          List.filterMap_cons]
      · intro hne b2
        simp [traceBuildFailed, resizeStage, sharpenStage, cleanupBoth, cleanupResize,
          builds, List.filterMap_cons, hne]
  | success resizeOp sharpenOp builtOp v vf o1 o2 o3 o4 hr hs hb =>
    refine ⟨?_, ?_, ?_, ?_⟩
    · simp [traceSuccess, resizeStage, sharpenStage, extractStage, cleanupBoth,
        cleanupResize, builds, List.filterMap_cons]
    · simp [traceSuccess, resizeStage, sharpenStage, extractStage, cleanupBoth,
        cleanupResize, builds, descriptors, List.filterMap_cons, hr, hs]
    · simp [traceSuccess, resizeStage, sharpenStage, extractStage, cleanupBoth,
        cleanupResize, builds, beforeFirst, Event.isBuild, List.takeWhile_cons,
        List.filterMap_cons]
    · intro op b h
      simp [traceSuccess, resizeStage, sharpenStage, extractStage, cleanupBoth,
        cleanupResize, builds] at h
      obtain ⟨rfl, rfl⟩ := h
      refine ⟨resizeOp, ?_, ?_, ?_, ?_⟩
      · simp [traceSuccess, resizeStage, sharpenStage, extractStage, cleanupBoth,
          cleanupResize, descriptors, List.filterMap_cons, hr, hs]
      · simp [traceSuccess, resizeStage, sharpenStage, extractStage, cleanupBoth,
          cleanupResize, beforeFirst, propertySets, Event.isBuild, List.takeWhile_cons,
          List.filterMap_cons]
      · simp [traceSuccess, resizeStage, sharpenStage, extractStage, cleanupBoth,
          cleanupResize, afterFirst, propertySets, Event.isBuild, List.dropWhile_cons,
          List.filterMap_cons]
      · intro hne b2
        simp [traceSuccess, resizeStage, sharpenStage, extractStage, cleanupBoth,
          cleanupResize, builds, List.filterMap_cons, hne]

/-! ## Refused property writes -/

/-- C7, as stated, fails: on the reference engine with a sharpen operation that
knows no sigma, the write of sigma is refused as an invalid property, and the
function still calls build and returns an image and no error. -/
theorem refused_write_still_builds :
    (run specEngine (vstate0 radiusRegistry) sampleImage half oneAndHalf).st.trace.any
        Event.isRefusedSet = true ∧
      Event.setProperty 202 "sigma" .gvalueSigma (.double oneAndHalf)
          (some .invalidProperty) ∈
        (run specEngine (vstate0 radiusRegistry) sampleImage half oneAndHalf).st.trace ∧
      builds (run specEngine (vstate0 radiusRegistry) sampleImage half oneAndHalf).st.trace
        = [(202, 204)] ∧
      (run specEngine (vstate0 radiusRegistry) sampleImage half oneAndHalf).image
        = some ⟨205, 1, 1, none⟩ ∧
      (run specEngine (vstate0 radiusRegistry) sampleImage half oneAndHalf).err = none := by
  decide

/-- C7, amended: in every execution in which the engine refuses a property
write, the refusal happens before the build call; the function still calls
build, exactly once, when both descriptors were created; and it returns an
error and no image exactly when a creation call or the build call returned
null, an image and no error otherwise. -/
theorem refused_write_not_observed {σ : Type} (E : Engine σ) (s : σ) (inImage : ImageRef)
    (scale sigma : Float64)
    (h : (run E s inImage scale sigma).st.trace.any Event.isRefusedSet = true) :
    (afterFirst Event.isBuild (run E s inImage scale sigma).st.trace).any
        Event.isRefusedSet = false ∧
    ((descriptors (run E s inImage scale sigma).st.trace).length = 2 ↔
      (builds (run E s inImage scale sigma).st.trace).length = 1) ∧
    (((run E s inImage scale sigma).image = none ∧
        (run E s inImage scale sigma).err.isSome = true) ↔
      (run E s inImage scale sigma).st.trace.any Event.returnedNil = true) ∧
    (((run E s inImage scale sigma).image.isSome = true ∧
        (run E s inImage scale sigma).err = none) ↔
      (run E s inImage scale sigma).st.trace.any Event.returnedNil = false) := by
  have hx := run_execution E s inImage scale sigma
  generalize (run E s inImage scale sigma).st.trace = tr at hx h
  generalize (run E s inImage scale sigma).image = im at hx
  generalize (run E s inImage scale sigma).err = er at hx
  cases hx <;>
    simp [traceNoResize, traceNoSharpen, traceBuildFailed, traceSuccess, resizeStage,
      sharpenStage, extractStage, cleanupResize, cleanupBoth, afterFirst, builds,
      descriptors, Event.returnedNil, Event.isRefusedSet, Event.isBuild,
      List.dropWhile_cons, List.filterMap_cons, *]

/-- A concrete instance: the run in which the write of
sigma is refused. -/
theorem refused_write_not_observed_witness :
    (run specEngine (vstate0 radiusRegistry) sampleImage half oneAndHalf).st.trace.any
        Event.isRefusedSet = true ∧
    ((afterFirst Event.isBuild
        (run specEngine (vstate0 radiusRegistry) sampleImage half oneAndHalf).st.trace).any
          Event.isRefusedSet = false ∧
      ((descriptors
          (run specEngine (vstate0 radiusRegistry) sampleImage half oneAndHalf).st.trace).length
            = 2 ↔
        (builds
          (run specEngine (vstate0 radiusRegistry) sampleImage half oneAndHalf).st.trace).length
            = 1) ∧
      (((run specEngine (vstate0 radiusRegistry) sampleImage half oneAndHalf).image = none ∧
          (run specEngine (vstate0 radiusRegistry) sampleImage half oneAndHalf).err.isSome
            = true) ↔
        (run specEngine (vstate0 radiusRegistry) sampleImage half oneAndHalf).st.trace.any
          Event.returnedNil = true) ∧
      (((run specEngine (vstate0 radiusRegistry) sampleImage half oneAndHalf).image.isSome
            = true ∧
          (run specEngine (vstate0 radiusRegistry) sampleImage half oneAndHalf).err = none) ↔
        (run specEngine (vstate0 radiusRegistry) sampleImage half oneAndHalf).st.trace.any
          Event.returnedNil = false)) :=
  ⟨by decide,
    refused_write_not_observed specEngine (vstate0 radiusRegistry) sampleImage half
      oneAndHalf (by decide)⟩

/-! ## Failure atomicity -/

/-- On an engine whose failed builds leave a non-empty message, whenever the
build call returns null the function returns no image, the error carries the
message the failed build left in the engine, that message is not empty, and
the two descriptors created before the build are the objects released. -/
theorem build_failure_outcome {σ : Type} (E : Engine σ) (s : σ) (inImage : ImageRef)
    (scale sigma : Float64) (op : OpPtr)
    (hEngine : ∀ s1 o, (E.vips_cache_operation_build s1 o).1 = 0 →
      E.vips_error_buffer (E.vips_cache_operation_build s1 o).2 ≠ "")
    (hfail : (op, 0) ∈ builds (run E s inImage scale sigma).st.trace) :
    (run E s inImage scale sigma).image = none ∧
    (∃ e, (run E s inImage scale sigma).err = some e ∧ e.msg ≠ "" ∧
      Event.handleVipsError e.msg ∈ (run E s inImage scale sigma).st.trace ∧
      ∃ s1, (E.vips_cache_operation_build s1 op).1 = 0 ∧
        e.msg = E.vips_error_buffer (E.vips_cache_operation_build s1 op).2) ∧
    (∃ resizeOp, descriptors (run E s inImage scale sigma).st.trace
        = [("resize", resizeOp), ("sharpen", op)] ∧
      releasedObjects (run E s inImage scale sigma).st.trace
        = [.operation op, .operation resizeOp]) := by
  obtain ⟨s1, hs1, herr⟩ := run_build_failure E s inImage scale sigma op hfail
  have hx := run_execution E s inImage scale sigma
  generalize (run E s inImage scale sigma).st.trace = tr at hx hfail
  generalize (run E s inImage scale sigma).image = im at hx
  generalize (run E s inImage scale sigma).err = er at hx herr
  cases hx with
  | noResize msg => simp [traceNoResize, builds] at hfail
  | noSharpen resizeOp o1 o2 msg hr =>
    simp [traceNoSharpen, resizeStage, cleanupResize, builds] at hfail
  | buildFailed resizeOp sharpenOp v o1 o2 o3 o4 msg hr hs =>
    simp [traceBuildFailed, resizeStage, sharpenStage, cleanupBoth, cleanupResize,
      builds] at hfail
    subst hfail
    simp only [Option.some.injEq, GoError.mk.injEq] at herr
    subst herr
    refine ⟨rfl, ⟨_, rfl, hEngine s1 _ hs1, ?_, s1, hs1, rfl⟩, resizeOp, ?_, ?_⟩
    · simp [traceBuildFailed, resizeStage, sharpenStage, cleanupBoth, cleanupResize]
    · simp [traceBuildFailed, resizeStage, sharpenStage, cleanupBoth, cleanupResize,
        descriptors, List.filterMap_cons, hr, hs]
    · simp [traceBuildFailed, resizeStage, sharpenStage, cleanupBoth, cleanupResize,
        releasedObjects, Event.released, List.filterMap_cons]
  | success resizeOp sharpenOp builtOp v vf o1 o2 o3 o4 hr hs hb =>
    simp [traceSuccess, resizeStage, sharpenStage, extractStage, cleanupBoth,
      cleanupResize, builds] at hfail
    exact absurd hfail.2.symm hb

/-- C8: on the reference engine, from every engine state with the vips
registry and for every input image, whenever the scale or the sigma supplied is
out of range (a negative scale, for one) the build call returns null, the
function returns no image, the error it returns carries the message the failed
build left in the engine, that message is not empty, and the two descriptors
created before the build are exactly the objects released. -/
theorem out_of_range_fails_atomically (s : VState) (inImage : ImageRef)
    (scale sigma : Float64) (hreg : s.registry = vipsRegistry)
    (hrange : scale.inRange = false ∨ sigma.inRange = false) :
    builds (run specEngine s inImage scale sigma).st.trace = [(s.next + 3, 0)] ∧
    (run specEngine s inImage scale sigma).image = none ∧
    (∃ e, (run specEngine s inImage scale sigma).err = some e ∧ e.msg ≠ "" ∧
      Event.handleVipsError e.msg ∈ (run specEngine s inImage scale sigma).st.trace ∧
      ∃ s1, (specEngine.vips_cache_operation_build s1 (s.next + 3)).1 = 0 ∧
        e.msg = specEngine.vips_error_buffer
          (specEngine.vips_cache_operation_build s1 (s.next + 3)).2) ∧
    descriptors (run specEngine s inImage scale sigma).st.trace = [("resize", s.next + 1), ("sharpen", s.next + 3)] ∧
    releasedObjects (run specEngine s inImage scale sigma).st.trace
      = [.operation (s.next + 3), .operation (s.next + 1)] := by
  obtain ⟨h1, h2, h3, rest, h4⟩ := wired_specEngine s hreg inImage scale sigma
  have hw := run_builds_wired specEngine s inImage scale sigma
    (by rw [h1]; exact Nat.succ_ne_zero _) (by rw [h2]; exact Nat.succ_ne_zero _)
  rw [h1, h2, build_rejects_out_of_range _ s.next _ _ _ rest h3 h4 hrange] at hw
  obtain ⟨hd, hb⟩ := hw
  have hfail : (s.next + 3, 0) ∈ builds (run specEngine s inImage scale sigma).st.trace := by
    rw [hb]
    exact List.mem_singleton.mpr rfl
  obtain ⟨him, hmsg, resizeOp, hd2, hrel⟩ :=
    build_failure_outcome specEngine s inImage scale sigma (s.next + 3)
      specEngine_build_message hfail
  rw [hd] at hd2
  simp only [List.cons.injEq, Prod.mk.injEq, true_and, and_true] at hd2
  subst hd2
  exact ⟨hb, him, hmsg, hd, hrel⟩

/-- A concrete instance: the scale -0.5 on the reference engine holding one
loaded image. -/
theorem out_of_range_fails_atomically_witness :
    (vstate0 vipsRegistry).registry = vipsRegistry ∧
    (minusHalf.inRange = false ∨ oneAndHalf.inRange = false) ∧
    (builds (run specEngine (vstate0 vipsRegistry) sampleImage minusHalf oneAndHalf).st.trace = [((vstate0 vipsRegistry).next + 3, 0)] ∧
      (run specEngine (vstate0 vipsRegistry) sampleImage minusHalf oneAndHalf).image = none ∧
      (∃ e, (run specEngine (vstate0 vipsRegistry) sampleImage minusHalf oneAndHalf).err = some e ∧ e.msg ≠ "" ∧
        Event.handleVipsError e.msg ∈ (run specEngine (vstate0 vipsRegistry) sampleImage minusHalf oneAndHalf).st.trace ∧
        ∃ s1, (specEngine.vips_cache_operation_build s1
            ((vstate0 vipsRegistry).next + 3)).1 = 0 ∧
          e.msg = specEngine.vips_error_buffer
            (specEngine.vips_cache_operation_build s1
              ((vstate0 vipsRegistry).next + 3)).2) ∧
      descriptors (run specEngine (vstate0 vipsRegistry) sampleImage minusHalf oneAndHalf).st.trace
        = [("resize", (vstate0 vipsRegistry).next + 1),
           ("sharpen", (vstate0 vipsRegistry).next + 3)] ∧
      releasedObjects (run specEngine (vstate0 vipsRegistry) sampleImage minusHalf oneAndHalf).st.trace
        = [.operation ((vstate0 vipsRegistry).next + 3),
           .operation ((vstate0 vipsRegistry).next + 1)]) :=
  ⟨rfl, Or.inl (by decide),
    out_of_range_fails_atomically (vstate0 vipsRegistry) sampleImage minusHalf oneAndHalf
      rfl (Or.inl (by decide))⟩

/-! ## Value carriers -/

/-- C9: for each of the five carriers, on every path, the calls made on the
carrier are either none at all or exactly three: one that initialises it with
a value, one that consumes that value (a property write, or the image read),
and then its unset; and when the function returns the carrier is zeroed. -/
theorem carrier_discipline {σ : Type} (E : Engine σ) (s : σ) (inImage : ImageRef)
    (scale sigma : Float64) (c : Carrier) :
    (carrierCalls c (run E s inImage scale sigma).st.trace = [] ∨
      ∃ v a b, carrierCalls c (run E s inImage scale sigma).st.trace
          = [a, b, .valueUnset c v] ∧
        a.initialises v = true ∧ b.consumes v = true) ∧
    (run E s inImage scale sigma).st.carriers c = .unset := by
  refine ⟨?_, (run_final_state E s inImage scale sigma).2.2 c⟩
  have hx := run_execution E s inImage scale sigma
  generalize (run E s inImage scale sigma).st.trace = tr at hx
  generalize (run E s inImage scale sigma).image = im at hx
  generalize (run E s inImage scale sigma).err = er at hx
  cases hx <;> cases c <;>
    simp [traceNoResize, traceNoSharpen, traceBuildFailed, traceSuccess, resizeStage,
      sharpenStage, extractStage, cleanupResize, cleanupBoth, carrierCalls,
      Event.carrier, List.filter_cons] <;>
    exact ⟨_, _, _, ⟨rfl, rfl, rfl⟩, by simp [Event.initialises],
      by simp [Event.consumes]⟩

/-! ## The returned handle and the input handle -/

/-- C10: on every path the handle behind `inImage` is left as it was; on
success the returned handle has the format and original format of the input
handle, no buffer, and wraps the image pointer that was read, after the build,
from the out property of the built operation. -/
theorem result_handle_and_frame {σ : Type} (E : Engine σ) (s : σ) (inImage : ImageRef)
    (scale sigma : Float64) :
    (run E s inImage scale sigma).st.inImage = inImage ∧
    (∀ out, (run E s inImage scale sigma).image = some out →
      out.format = inImage.format ∧ out.originalFormat = inImage.originalFormat ∧
      out.buf = none ∧
      ∃ op builtOp vf, builtOp ≠ 0 ∧
        builds (run E s inImage scale sigma).st.trace = [(op, builtOp)] ∧
        propertyGets (afterFirst Event.isBuild (run E s inImage scale sigma).st.trace)
          = [(builtOp, "out", vf)] ∧
        Event.valueGetImage .gvalueFinalOut out.image
          ∈ (run E s inImage scale sigma).st.trace ∧
        out.image = vf.imagePtr) := by
  refine ⟨(run_final_state E s inImage scale sigma).1, ?_⟩
  have hx := run_execution E s inImage scale sigma
  generalize (run E s inImage scale sigma).st.trace = tr at hx
  generalize (run E s inImage scale sigma).image = im at hx
  generalize (run E s inImage scale sigma).err = er at hx
  intro out h
  cases hx with
  | noResize msg => simp at h
  | noSharpen resizeOp o1 o2 msg hr => simp at h
  | buildFailed resizeOp sharpenOp v o1 o2 o3 o4 msg hr hs => simp at h
  | success resizeOp sharpenOp builtOp v vf o1 o2 o3 o4 hr hs hb =>
    simp only [Option.some.injEq] at h
    subst h
    refine ⟨rfl, rfl, rfl, sharpenOp, builtOp, vf, hb, ?_, ?_, ?_, rfl⟩
    · simp [traceSuccess, resizeStage, sharpenStage, extractStage, cleanupBoth,
        cleanupResize, builds, List.filterMap_cons]
    · simp [traceSuccess, resizeStage, sharpenStage, extractStage, cleanupBoth,
        cleanupResize, afterFirst, propertyGets, Event.isBuild, List.dropWhile_cons,
        List.filterMap_cons]
    · simp [traceSuccess, resizeStage, sharpenStage, extractStage, cleanupBoth,
        cleanupResize]

/-! ## Concrete runs -/

/-- A concrete instance: a successful run on the
reference engine. -/
theorem output_reference_before_release_witness :
    (run specEngine (vstate0 vipsRegistry) sampleImage half oneAndHalf).image = some ⟨205, 1, 1, none⟩ ∧ (205 : ImagePtr) ≠ 0 ∧
    (Event.ref (.image 205) ∈ (run specEngine (vstate0 vipsRegistry) sampleImage half oneAndHalf).st.trace ∧
      (beforeFirst (fun e => decide (e = Event.ref (.image 205)))
        (run specEngine (vstate0 vipsRegistry) sampleImage half oneAndHalf).st.trace).all (fun e => !e.isRelease) = true ∧
      (∃ op b, b ≠ 0 ∧
        (op, b) ∈ builds (beforeFirst (fun e => decide (e = Event.ref (.image 205)))
          (run specEngine (vstate0 vipsRegistry) sampleImage half oneAndHalf).st.trace) ∧
        Event.unref (.operation b) ∈
          afterFirst (fun e => decide (e = Event.ref (.image 205))) (run specEngine (vstate0 vipsRegistry) sampleImage half oneAndHalf).st.trace) ∧
      netImageRefs 205 (run specEngine (vstate0 vipsRegistry) sampleImage half oneAndHalf).st.trace = 1) :=
  ⟨by decide, by decide,
    output_reference_before_release specEngine (vstate0 vipsRegistry) sampleImage half
      oneAndHalf ⟨205, 1, 1, none⟩ (by decide) (by decide)⟩

/-- A concrete instance: a successful run on the reference
engine builds the sharpen descriptor at 202. -/
theorem graph_wired_at_build_witness :
    (202, 204) ∈ builds (run specEngine (vstate0 vipsRegistry) sampleImage half oneAndHalf).st.trace ∧
    ∃ resizeOp v,
      descriptors (beforeFirst Event.isBuild (run specEngine (vstate0 vipsRegistry) sampleImage half oneAndHalf).st.trace)
        = [("resize", resizeOp), ("sharpen", 202)] ∧
      propertyGets (beforeFirst Event.isBuild (run specEngine (vstate0 vipsRegistry) sampleImage half oneAndHalf).st.trace) = [(resizeOp, "out", v)] ∧
      propertySets (beforeFirst Event.isBuild (run specEngine (vstate0 vipsRegistry) sampleImage half oneAndHalf).st.trace)
        = [(resizeOp, "in", .image sampleImage.image), (resizeOp, "scale", .double half),
           (202, "in", v), (202, "sigma", .double oneAndHalf)] :=
  ⟨by decide,
    graph_wired_at_build specEngine (vstate0 vipsRegistry) sampleImage half oneAndHalf
      202 204 (by decide)⟩

/-- A concrete instance: a successful run on the reference engine calls build
once, on the sharpen descriptor at 202. -/
theorem build_once_at_end_witness :
    (builds (run specEngine (vstate0 vipsRegistry) sampleImage half oneAndHalf).st.trace).length ≤ 1 ∧
    ((builds (run specEngine (vstate0 vipsRegistry) sampleImage half oneAndHalf).st.trace).length = 1 ↔ (descriptors (run specEngine (vstate0 vipsRegistry) sampleImage half oneAndHalf).st.trace).length = 2) ∧
    builds (beforeFirst Event.isBuild (run specEngine (vstate0 vipsRegistry) sampleImage half oneAndHalf).st.trace) = [] ∧
    (∀ op b, (op, b) ∈ builds (run specEngine (vstate0 vipsRegistry) sampleImage half oneAndHalf).st.trace →
      ∃ resizeOp,
        descriptors (run specEngine (vstate0 vipsRegistry) sampleImage half oneAndHalf).st.trace = [("resize", resizeOp), ("sharpen", op)] ∧
        (propertySets (beforeFirst Event.isBuild (run specEngine (vstate0 vipsRegistry) sampleImage half oneAndHalf).st.trace)).map (fun x => (x.1, x.2.1))
          = [(resizeOp, "in"), (resizeOp, "scale"), (op, "in"), (op, "sigma")] ∧
        propertySets (afterFirst Event.isBuild (run specEngine (vstate0 vipsRegistry) sampleImage half oneAndHalf).st.trace) = [] ∧
        (resizeOp ≠ op → ∀ b2, (resizeOp, b2) ∉ builds (run specEngine (vstate0 vipsRegistry) sampleImage half oneAndHalf).st.trace)) :=
  build_once_at_end specEngine (vstate0 vipsRegistry) sampleImage half oneAndHalf

/-- A concrete instance: a successful run on the reference engine returns a
handle on the image at 205 and leaves the input handle alone. -/
theorem result_handle_and_frame_witness :
    (run specEngine (vstate0 vipsRegistry) sampleImage half oneAndHalf).st.inImage = sampleImage ∧
    (∀ out, (run specEngine (vstate0 vipsRegistry) sampleImage half oneAndHalf).image = some out →
      out.format = sampleImage.format ∧ out.originalFormat = sampleImage.originalFormat ∧
      out.buf = none ∧
      ∃ op builtOp vf, builtOp ≠ 0 ∧
        builds (run specEngine (vstate0 vipsRegistry) sampleImage half oneAndHalf).st.trace = [(op, builtOp)] ∧
        propertyGets (afterFirst Event.isBuild (run specEngine (vstate0 vipsRegistry) sampleImage half oneAndHalf).st.trace) = [(builtOp, "out", vf)] ∧
        Event.valueGetImage .gvalueFinalOut out.image ∈ (run specEngine (vstate0 vipsRegistry) sampleImage half oneAndHalf).st.trace ∧
        out.image = vf.imagePtr) :=
  result_handle_and_frame specEngine (vstate0 vipsRegistry) sampleImage half oneAndHalf

/-- On the reference engine, after a successful call the three operation
objects are gone and the returned image is still held by exactly one
reference, the one of the returned handle; the input image keeps the one
reference of its own handle. -/
theorem returned_image_survives_cleanup :
    refCount (.operation 200) (run specEngine (vstate0 vipsRegistry) sampleImage half oneAndHalf).st.engine.refs = 0 ∧
    refCount (.operation 202) (run specEngine (vstate0 vipsRegistry) sampleImage half oneAndHalf).st.engine.refs = 0 ∧
    refCount (.operation 204) (run specEngine (vstate0 vipsRegistry) sampleImage half oneAndHalf).st.engine.refs = 0 ∧
    refCount (.image 205) (run specEngine (vstate0 vipsRegistry) sampleImage half oneAndHalf).st.engine.refs = 1 ∧
    refCount (.image 100) (run specEngine (vstate0 vipsRegistry) sampleImage half oneAndHalf).st.engine.refs = 1 := by
  decide

/-- On the reference engine, after a successful call the graph is the one the
function wired: the resize descriptor at 200 holds the input image and the
scale, the sharpen descriptor at 202 holds as its in the output image of resize
(201) and the sigma, and the built operation at 204 is a third object. -/
theorem reference_engine_graph :
    (run specEngine (vstate0 vipsRegistry) sampleImage half oneAndHalf).st.engine.ops =
      [⟨204, "sharpen", [("sigma", .double oneAndHalf), ("in", .image 201)], true⟩,
       ⟨202, "sharpen", [("sigma", .double oneAndHalf), ("in", .image 201)], false⟩,
       ⟨200, "resize", [("scale", .double half), ("in", .image 100)], false⟩] := by
  decide

end Govips
